import Mathlib

/-!
Shallow embedding of `django-registration` (src/registration/models.py and
src/registration/backends.py) and proofs about its activation-key lifecycle.

Modelling conventions:
* A Django `User` row becomes `PyUser`; its primary key is `id`, and
  `date_joined` is an integer timestamp in microseconds (the resolution of
  Python `datetime`).  `timedelta(days = d)` becomes `d * usPerDay`.
* A `RegistrationProfile` row embeds its one-to-one `User` row, so the whole
  database relevant to this module is a `Store := List RegistrationProfile`.
* The settings `ACCOUNT_ACTIVATION_DAYS` and the clock `datetime.now()` are
  explicit integer parameters `days` and `now`.
* Django `Manager.get` returns the unique matching row, raises
  `DoesNotExist` on zero matches and `MultipleObjectsReturned` on several;
  this is embedded by matching on `List.filter`.
* Every `return False` exit of `activate_user` is modelled by a distinct
  failure constructor so that theorems can speak about which check failed;
  all of them denote the single Python value `False`.
-/

set_option autoImplicit false

namespace Registration

/-- A Django auth `User` row, restricted to the fields this module reads or
writes: `id` is the primary key, `date_joined` a timestamp in microseconds. -/
structure PyUser where
  id : Nat
  username : String
  email : String
  is_active : Bool
  date_joined : Int
  deriving DecidableEq, Repr

/-- A `RegistrationProfile` row: the one-to-one `user` and the
`activation_key` CharField. -/
structure RegistrationProfile where
  user : PyUser
  activation_key : String
  deriving DecidableEq, Repr

/-- The whole table of registration profiles (with their users). -/
abbrev Store := List RegistrationProfile

/-- `RegistrationProfile.ACTIVATED = u"ALREADY_ACTIVATED"`. -/
def ACTIVATED : String := "ALREADY_ACTIVATED"

/-- Microseconds per day: `datetime.timedelta(days = 1)` at `datetime`'s
microsecond resolution. -/
def usPerDay : Int := 86400000000

/-- One character of the class `[a-f0-9]`. -/
def isLowerHexDigit (c : Char) : Bool :=
  (decide ('a' ≤ c) && decide (c ≤ 'f')) || (decide ('0' ≤ c) && decide (c ≤ '9'))

/-- `SHA1_RE.search(s)` for `SHA1_RE = re.compile('^[a-f0-9]{40}$')`.
Without `re.MULTILINE`, `^` anchors at position 0 only, and Python's `$`
matches at the end of the string *or just before a newline at the end of the
string*; so the regex accepts exactly the 40-lower-hex strings and the
41-character strings made of 40 lower-hex digits plus a trailing `'\n'`. -/
def sha1Match (s : String) : Bool :=
  let cs := s.toList
  (cs.length == 40 && cs.all isLowerHexDigit) ||
  (cs.length == 41 && (cs.take 40).all isLowerHexDigit && cs.getLast? == some '\n')

/-- The property the specification ascribes to well-formed tokens: exactly 40
characters, each a lowercase hexadecimal digit.  (Stated from the spec's
words, for comparison with `sha1Match`, the semantics of the source's
regex check.) -/
def isStrict40Hex (s : String) : Bool :=
  s.toList.length == 40 && s.toList.all isLowerHexDigit

/-- `RegistrationProfile.activation_key_expired`, with the setting
`ACCOUNT_ACTIVATION_DAYS` passed as `days` and `datetime.datetime.now()` as
`now`:

    if settings.ACCOUNT_ACTIVATION_DAYS > 0:
        expiration_date = datetime.timedelta(days=settings.ACCOUNT_ACTIVATION_DAYS)
        return self.activation_key == self.ACTIVATED or \
               (self.user.date_joined + expiration_date <= datetime.datetime.now())
    else:
        return self.activation_key == self.ACTIVATED
-/
def activation_key_expired (days now : Int) (p : RegistrationProfile) : Bool :=
  if days > 0 then
    p.activation_key == ACTIVATED ||
      decide (p.user.date_joined + days * usPerDay ≤ now)
  else
    p.activation_key == ACTIVATED

/-- `RegistrationProfile.get_has_activated`. -/
def get_has_activated (p : RegistrationProfile) : Bool :=
  p.activation_key == ACTIVATED

/-- Outcome of `RegistrationManager.activate_user`.  `activated u` is the
Python return value `user`; `invalidKey`, `notFound` and `expired` are the
three distinct code paths that all return the Python value `False`;
`dbError` is an uncaught `MultipleObjectsReturned` exception from
`self.get(activation_key=...)` (only the `DoesNotExist` exception is
caught by the source). -/
inductive ActivateResult where
  | activated (u : PyUser)
  | invalidKey
  | notFound
  | expired
  | dbError
  deriving DecidableEq, Repr

/-- The full effect of one `activate_user` call: its return value, the store
after it, and the list of users the optional callback was invoked on. -/
structure ActivateOutcome where
  result : ActivateResult
  store : Store
  callbackCalls : List PyUser
  deriving DecidableEq, Repr

/-- `user.save()`: write the `User` row with primary key `u.id` back; every
profile row referencing that user now reads the updated row. -/
def saveUser (s : Store) (u : PyUser) : Store :=
  s.map (fun p => if p.user.id == u.id then { p with user := u } else p)

/-- `profile.save()` after `profile.activation_key = k`: write the profile
row (keyed by its one-to-one user) back with the new key. -/
def saveProfileKey (s : Store) (uid : Nat) (k : String) : Store :=
  s.map (fun p => if p.user.id == uid then { p with activation_key := k } else p)

/-- `RegistrationManager.activate_user(activation_key, callback)`.

    if SHA1_RE.search(activation_key):
        try:
            profile = self.get(activation_key=activation_key)
        except self.model.DoesNotExist:
            return False
        if not profile.activation_key_expired():
            user = profile.user
            user.is_active = True
            user.save()
            profile.activation_key = self.model.ACTIVATED
            profile.save()
            if callback is not None:
                callback(user)
            return user
    return False

`hasCallback` says whether `callback is not None`; the users it gets called
on are logged in `callbackCalls`. -/
def activate_user (days now : Int) (hasCallback : Bool) (s : Store)
    (activation_key : String) : ActivateOutcome :=
  if sha1Match activation_key then
    match s.filter (fun p => p.activation_key == activation_key) with
    | [] => ⟨.notFound, s, []⟩
    | [profile] =>
      if !activation_key_expired days now profile then
        let u : PyUser := { profile.user with is_active := true }
        let s1 := saveUser s u
        let s2 := saveProfileKey s1 u.id ACTIVATED
        ⟨.activated u, s2, if hasCallback then [u] else []⟩
      else
        ⟨.expired, s, []⟩
    | _ :: _ :: _ => ⟨.dbError, s, []⟩
  else
    ⟨.invalidKey, s, []⟩

/-- The deletion condition of `delete_expired_users`'s loop body:
`profile.activation_key_expired()` and `not user.is_active`. -/
def purgeCond (days now : Int) (p : RegistrationProfile) : Bool :=
  activation_key_expired days now p && !p.user.is_active

/-- `user.delete()`: remove the `User` row with primary key `uid`; the
one-to-one profile is cascade-deleted with it, so the whole row leaves the
store. -/
def deleteUser (s : Store) (uid : Nat) : Store :=
  s.filter (fun p => !(p.user.id == uid))

/-- The `for profile in self.all():` loop of `delete_expired_users`: the
first argument is the snapshot being iterated, the second the live store
deletions act on. -/
def purgeLoop (days now : Int) : List RegistrationProfile → Store → Store
  | [], t => t
  | p :: rest, t =>
    if purgeCond days now p then
      purgeLoop days now rest (deleteUser t p.user.id)
    else
      purgeLoop days now rest t

/-- `RegistrationManager.delete_expired_users`:

    for profile in self.all():
        if profile.activation_key_expired():
            user = profile.user
            if not user.is_active:
                user.delete()
-/
def delete_expired_users (days now : Int) (s : Store) : Store :=
  purgeLoop days now s s

/-- Exceptions this module can raise. -/
inductive PyError where
  | nameError (n : String)
  | doesNotExist
  | multipleObjectsReturned
  deriving DecidableEq, Repr

/-- `RegistrationManager.create_inactive_user(username, password, email, ...)`.

The first statement of its body is `with transaction.atomic():`, but the
name `transaction` is never imported in models.py (the imports are
`datetime`, `random`, `re`, `settings`, `models`, `render_to_string`,
`ugettext_lazy`, `sha1`, `get_user_model`, `Site`), so every call raises
`NameError: name 'transaction' is not defined` before any account or
profile is created; the rest of the body is unreachable. -/
def create_inactive_user (username password email : String)
    (send_email : Bool) (hasProfileCallback : Bool)
    (first_name last_name template_body template_subject : String)
    (s : Store) : Except PyError (PyUser × Store) :=
  let _ := (username, password, email, send_email, hasProfileCallback,
            first_name, last_name, template_body, template_subject, s)
  .error (.nameError "transaction")

/-- An outgoing mail, as handed to `django.core.mail.send_mail`. -/
structure Mail where
  subject : String
  message : String
  from_email : String
  to_email : String
  deriving DecidableEq, Repr

/-- Python line-boundary characters: `str.splitlines` splits on each of
these (plus the pair `"\r\n"`, whose two characters are both in the set). -/
def isLineBoundary (c : Char) : Bool :=
  c == '\n' || c == '\r' || c == '\x0b' || c == '\x0c' ||
  c == '\x1c' || c == '\x1d' || c == '\x1e' || c == '\x85' ||
  c == '\u2028' || c == '\u2029'

/-- `''.join(s.splitlines())`: splitting at line boundaries drops every
boundary character (a `"\r\n"` pair drops both) and joining concatenates
the remaining pieces, so the composite removes exactly the line-boundary
characters. -/
def joinSplitlines (s : String) : String :=
  String.mk (s.toList.filter (fun c => !isLineBoundary c))

/-- The characters stripped by Python `str.strip()` with no argument, i.e.
those for which `str.isspace()` holds: U+0009 - U+000D, U+001C - U+001F,
space, U+0085, U+00A0, U+1680, U+2000 - U+200A, U+2028, U+2029, U+202F,
U+205F and U+3000. -/
def isPySpace (c : Char) : Bool :=
  c == '\x09' || c == '\x0a' || c == '\x0b' || c == '\x0c' || c == '\x0d' ||
  c == '\x1c' || c == '\x1d' || c == '\x1e' || c == '\x1f' || c == ' ' ||
  c == '\x85' || c == '\xa0' || c == '\u1680' ||
  (decide ('\u2000' ≤ c) && decide (c ≤ '\u200a')) ||
  c == '\u2028' || c == '\u2029' || c == '\u202f' || c == '\u205f' ||
  c == '\u3000'

/-- Python `s.strip()`. -/
def pyStrip (s : String) : String :=
  String.mk (((s.toList.dropWhile isPySpace).reverse.dropWhile isPySpace).reverse)

/-- The template-name defaulting of `send_activation_email`:
`if not template_body or template_body == '': template_body = ...`
(`none` stands for Python `None`). -/
def defaultIfBlank (t : Option String) (dflt : String) : String :=
  match t with
  | none => dflt
  | some x => if x == "" then dflt else x

/-- The destination address `send_activation_email` resolves:

    if email is None or email.strip() == u'':
        email = user.email
-/
def resolvedDest (userEmail : String) (email : Option String) : String :=
  match email with
  | none => userEmail
  | some e => if pyStrip e == "" then userEmail else e

/-- `RegistrationManager.send_activation_email(username, extra_mail_context,
email, template_body, template_subject)`.

The template-rendering collaborator `render_to_string` is the abstract
parameter `render` (template name to rendered text; the context handed to
it is out of this module's scope), `settings.DEFAULT_FROM_EMAIL` is
`defaultFrom`.  `User.objects.get(username=username)` and
`self.get(user=user)` are the filter-match below: the store's rows pair
each user with its unique profile, so one lookup finds both; zero or
several matches raise.  Returns `some mail` when `send_mail` is called,
`none` when sending is silently skipped. -/
def send_activation_email (render : String → String) (defaultFrom : String)
    (s : Store) (username : String) (email : Option String)
    (template_body template_subject : Option String) :
    Except PyError (Option Mail) :=
  let tb := defaultIfBlank template_body "registration/activation_email.txt"
  let ts := defaultIfBlank template_subject "registration/activation_email_subject.txt"
  match s.filter (fun p => p.user.username == username) with
  | [] => .error .doesNotExist
  | [profile] =>
    let subject := joinSplitlines (render ts)
    let message := render tb
    let dest := resolvedDest profile.user.email email
    if !(pyStrip dest == "") then
      .ok (some ⟨subject, message, defaultFrom, dest⟩)
    else
      .ok none
  | _ :: _ :: _ => .error .multipleObjectsReturned

/-- `RegistrationBackend.authenticate(activation_key)` from backends.py:

    if activation_key is None:
        return None
    profiles = RegistrationProfile.objects.filter(activation_key=activation_key)
    if len(profiles) == 0:
        return None
    profile = profiles[0]
    return profile.user
-/
def authenticate (s : Store) (activation_key : Option String) : Option PyUser :=
  match activation_key with
  | none => none
  | some k =>
    match s.filter (fun p => p.activation_key == k) with
    | [] => none
    | profile :: _ => some profile.user

/-- A syntactically well-formed sample activation key (40 times `a`). -/
def k40sample : String := "aaaaaaaaaaaaaaaaaaaaaaaaaaaaaaaaaaaaaaaa"

/-- The sample key with a trailing newline: 41 characters. -/
def newlineToken : String := k40sample.push '\n'

/-- A sample inactive user created at timestamp 0. -/
def u0sample : PyUser :=
  { id := 1, username := "alice", email := "a@example.com",
    is_active := false, date_joined := 0 }

/-- Sample: inactive account with an elapsed window at day 8 of a 7-day
window. -/
def rowExpiredInactive : RegistrationProfile :=
  ⟨{ id := 1, username := "a", email := "a@x.com", is_active := false,
     date_joined := 0 }, k40sample⟩

/-- Sample: active account whose token is still inside the window at day 8
(created at day 2, 7-day window). -/
def rowActiveValid : RegistrationProfile :=
  ⟨{ id := 2, username := "b", email := "b@x.com", is_active := true,
     date_joined := 2 * usPerDay }, k40sample⟩

/-- Sample: administratively deactivated account whose record holds the
sentinel token. -/
def rowSentinelInactive : RegistrationProfile :=
  ⟨{ id := 3, username := "c", email := "c@x.com", is_active := false,
     date_joined := 0 }, ACTIVATED⟩

/-- Sample three-row store exercising each purge case. -/
def s3sample : Store := [rowExpiredInactive, rowActiveValid, rowSentinelInactive]

/-! ## Helper lemmas -/

theorem sha1Match_ACTIVATED : sha1Match ACTIVATED = false := by decide

theorem ne_ACTIVATED_of_sha1Match {k : String} (hk : sha1Match k = true) :
    k ≠ ACTIVATED := by
  intro h
  rw [h, sha1Match_ACTIVATED] at hk
  cases hk

theorem beq_ACTIVATED_false_of_sha1Match {k : String} (hk : sha1Match k = true) :
    (k == ACTIVATED) = false :=
  beq_eq_false_iff_ne.mpr (ne_ACTIVATED_of_sha1Match hk)

theorem ACTIVATED_beq_false_of_sha1Match {k : String} (hk : sha1Match k = true) :
    (ACTIVATED == k) = false :=
  beq_eq_false_iff_ne.mpr (Ne.symm (ne_ACTIVATED_of_sha1Match hk))

/-- A sentinel-keyed profile is expired for every window length and clock. -/
theorem expired_of_sentinel (days now : Int) (q : RegistrationProfile)
    (h : q.activation_key = ACTIVATED) :
    activation_key_expired days now q = true := by
  unfold activation_key_expired
  rw [h]
  split <;> simp

/-- A filtered list of length at most one that contains a member with the
property is exactly the singleton of that member. -/
theorem filter_eq_singleton_of_mem {α : Type} {pred : α → Bool} {l : List α}
    {a : α} (hmem : a ∈ l) (ha : pred a = true)
    (hlen : (l.filter pred).length ≤ 1) :
    l.filter pred = [a] := by
  have hin : a ∈ l.filter pred := List.mem_filter.mpr ⟨hmem, ha⟩
  cases hfil : l.filter pred with
  | nil => rw [hfil] at hin; cases hin
  | cons x xs =>
    cases xs with
    | nil =>
      rw [hfil] at hin
      have hax : a = x := by simpa using hin
      rw [hax]
    | cons y ys =>
      rw [hfil] at hlen
      simp at hlen

/-- The first element of a filtered list is the first element satisfying
the predicate. -/
theorem head_filter_eq_find {α : Type} (pred : α → Bool) :
    ∀ l : List α, (l.filter pred).head? = l.find? pred := by
  intro l
  induction l with
  | nil => rfl
  | cons a l ih =>
    by_cases h : pred a = true
    · simp [List.filter_cons, List.find?_cons, h]
    · have h' : pred a = false := by simpa using h
      simp [List.filter_cons, List.find?_cons, h', ih]

/-- `joinSplitlines` leaves no line-boundary character in its output. -/
theorem joinSplitlines_no_boundary (t : String) :
    ∀ c ∈ (joinSplitlines t).toList, isLineBoundary c = false := by
  intro c hc
  unfold joinSplitlines at hc
  simp only [String.toList] at hc
  have h := (List.mem_filter.mp hc).2
  simpa using h

/-- The success path of `activate_user`: when the key is well-formed, the
lookup finds exactly the record `p`, and `p` is not expired, the call
returns the activated user, rewrites that record's row to
active-with-sentinel and leaves every other row unchanged. -/
theorem activate_success_eq (days now : Int) (cb : Bool) (s : Store)
    (k : String) (p : RegistrationProfile) (hsha : sha1Match k = true)
    (hfil : s.filter (fun q => q.activation_key == k) = [p])
    (hexp : activation_key_expired days now p = false) :
    activate_user days now cb s k =
      ⟨.activated { p.user with is_active := true },
       s.map (fun q => if q.user.id == p.user.id then
         ⟨{ p.user with is_active := true }, ACTIVATED⟩ else q),
       if cb then [{ p.user with is_active := true }] else []⟩ := by
  have hstore : saveProfileKey
      (saveUser s { p.user with is_active := true })
      (PyUser.id { p.user with is_active := true }) ACTIVATED =
      s.map (fun q => if q.user.id == p.user.id then
        ⟨{ p.user with is_active := true }, ACTIVATED⟩ else q) := by
    unfold saveUser saveProfileKey
    rw [List.map_map]
    apply List.map_congr_left
    intro q hq
    by_cases hid : (q.user.id == p.user.id) = true
    · simp [Function.comp, hid]
    · have hid' : (q.user.id == p.user.id) = false := by simpa using hid
      simp [Function.comp, hid']
  simp [activate_user, hsha, hfil, hexp, hstore]

/-! ## Claim theorems -/

/-- C2: for every registration record, window length and current time,
`activation_key_expired` returns true iff the record's token equals the
sentinel `ALREADY_ACTIVATED`, or the window length is positive and the
account's creation timestamp plus the window in days is at most the current
time; in particular a non-positive window never expires a record by elapsed
time, only by having been activated. -/
theorem activation_key_expired_iff (days now : Int) (p : RegistrationProfile) :
    activation_key_expired days now p =
      (p.activation_key == ACTIVATED ||
        (decide (days > 0) &&
          decide (p.user.date_joined + days * usPerDay ≤ now))) := by
  unfold activation_key_expired
  by_cases h : days > 0 <;> simp [h]

/-- C6 (code bug): `create_inactive_user` raises
`NameError: name 'transaction' is not defined` on every input, because its
body opens with `with transaction.atomic():` while models.py never imports
`transaction`; no account or registration record is ever created. -/
theorem create_inactive_user_raises_name_error
    (username password email : String) (send_email : Bool)
    (hasProfileCallback : Bool)
    (first_name last_name template_body template_subject : String)
    (s : Store) :
    create_inactive_user username password email send_email
      hasProfileCallback first_name last_name template_body template_subject
      s = .error (.nameError "transaction") := rfl

/-- C9: `authenticate` returns `None` for a `None` key; for any other key it
returns the user of the first registration record whose stored token equals
the key, and `None` when no record matches — with no syntax, expiry or
active-flag check, so in particular the literal sentinel string of an
already-activated record authenticates as that record's user. -/
theorem authenticate_first_match (s : Store) :
    authenticate s none = none ∧
    (∀ k : String, authenticate s (some k) =
      (s.find? (fun p => p.activation_key == k)).map RegistrationProfile.user) ∧
    (∀ (u : PyUser) (rest : Store),
      authenticate (⟨u, ACTIVATED⟩ :: rest) (some ACTIVATED) = some u) := by
  refine ⟨rfl, ?_, ?_⟩
  · intro k
    unfold authenticate
    rw [← head_filter_eq_find]
    cases hfil : s.filter (fun p => p.activation_key == k) with
    | nil => simp [hfil]
    | cons p rest => simp [hfil]
  · intro u rest
    unfold authenticate
    simp [List.filter_cons]

/-- C7 counterexample: the 41-character token made of 40 lowercase-hex
digits plus a trailing newline is not a 40-character lowercase-hex string,
yet `activate_user` does not fail at the syntax check: the source's regex
accepts it (Python's `$` matches before a trailing newline), so the call
proceeds to the record lookup and fails there with the not-found result
instead of the malformed-token result. -/
theorem trailing_newline_token_reaches_lookup :
    isStrict40Hex newlineToken = false ∧
    sha1Match newlineToken = true ∧
    (activate_user 7 0 false [⟨u0sample, k40sample⟩] newlineToken).result =
      .notFound ∧
    (activate_user 7 0 false [⟨u0sample, k40sample⟩] newlineToken).result ≠
      .invalidKey :=
  ⟨by decide, by decide, by decide, by decide⟩

/-- C7 (amended): every token that fails the source's anchored 40-hex
pattern fails with the malformed-token result before any lookup, leaving
the store untouched; and the only tokens that pass the pattern without
being exactly 40 lowercase-hex characters are the 41-character ones made of
40 lowercase-hex digits followed by a single trailing newline. -/
theorem invalid_syntax_fails_before_lookup :
    (∀ (days now : Int) (cb : Bool) (s : Store) (k : String),
      sha1Match k = false →
      activate_user days now cb s k = ⟨.invalidKey, s, []⟩) ∧
    (∀ k : String, isStrict40Hex k = false → sha1Match k = true →
      k.toList.length = 41 ∧
      (k.toList.take 40).all isLowerHexDigit = true ∧
      k.toList.getLast? = some '\n') := by
  constructor
  · intro days now cb s k h
    simp [activate_user, h]
  · intro k hstrict hmatch
    unfold isStrict40Hex at hstrict
    unfold sha1Match at hmatch
    simp only [Bool.or_eq_true, Bool.and_eq_true] at hmatch
    rcases hmatch with ⟨h1, h2⟩ | ⟨⟨h1, h2⟩, h3⟩
    · rw [h1, h2] at hstrict
      simp at hstrict
    · exact ⟨by simpa using h1, h2, by simpa using h3⟩

/-- C7 witness. -/
theorem invalid_syntax_fails_before_lookup_witness :
    activate_user 7 0 false [] "not-a-key" = ⟨.invalidKey, [], []⟩ ∧
    newlineToken.toList.length = 41 :=
  ⟨invalid_syntax_fails_before_lookup.1 7 0 false [] "not-a-key" (by decide),
   (invalid_syntax_fails_before_lookup.2 newlineToken (by decide)
     (by decide)).1⟩

/-- C5: with a 7-day window and a store holding one record whose well-formed
token is `k` and whose account was created at time `T`, activation with `k`
succeeds (returning the account with the active flag set) at every time
strictly before `T` plus 7 days, and fails with the expired result at `T`
plus exactly 7 days and at every later time. -/
theorem seven_day_window (T now : Int) (cb : Bool) (u : PyUser) (k : String)
    (hk : sha1Match k = true) (hT : u.date_joined = T) :
    (now < T + 7 * usPerDay →
      (activate_user 7 now cb [⟨u, k⟩] k).result =
        .activated { u with is_active := true }) ∧
    (T + 7 * usPerDay ≤ now →
      (activate_user 7 now cb [⟨u, k⟩] k).result = .expired) := by
  have hne := beq_ACTIVATED_false_of_sha1Match hk
  have h7 : (7 : Int) > 0 := by norm_num
  constructor
  · intro hlt
    have hd : decide (u.date_joined + 7 * usPerDay ≤ now) = false := by
      rw [hT]
      exact decide_eq_false (by omega)
    simp [activate_user, hk, List.filter_cons, activation_key_expired, h7,
      hne, hd]
  · intro hge
    have hd : decide (u.date_joined + 7 * usPerDay ≤ now) = true := by
      rw [hT]
      exact decide_eq_true hge
    simp [activate_user, hk, List.filter_cons, activation_key_expired, h7,
      hne, hd]

/-- C5 witness. -/
theorem seven_day_window_witness :
    (activate_user 7 (6 * usPerDay) false [⟨u0sample, k40sample⟩]
      k40sample).result = .activated { u0sample with is_active := true } ∧
    (activate_user 7 (7 * usPerDay) false [⟨u0sample, k40sample⟩]
      k40sample).result = .expired :=
  ⟨(seven_day_window 0 (6 * usPerDay) false u0sample k40sample (by decide)
      rfl).1 (by decide),
   (seven_day_window 0 (7 * usPerDay) false u0sample k40sample (by decide)
      rfl).2 (by decide)⟩

/-- C4: on any store in which the lookup for the fresh, well-formed,
non-expired token `k` finds exactly the record `⟨u, k⟩`, the first
activation call succeeds, flips the account's active flag and permanently
replaces that record's stored token with the sentinel; every later call
presenting the same token fails (no record carries it any more), and a
sentinel record counts as expired for every window and clock, so the
transition is one-way. -/
theorem activation_consumes_token_once (days now : Int) (cb : Bool)
    (s : Store) (u : PyUser) (k : String) (hk : sha1Match k = true)
    (hfil : s.filter (fun q => q.activation_key == k) = [⟨u, k⟩])
    (hfresh : activation_key_expired days now ⟨u, k⟩ = false) :
    (activate_user days now cb s k).result =
      .activated { u with is_active := true } ∧
    (activate_user days now cb s k).store =
      s.map (fun q => if q.user.id == u.id then
        ⟨{ u with is_active := true }, ACTIVATED⟩ else q) ∧
    (activate_user days now cb s k).callbackCalls =
      (if cb then [{ u with is_active := true }] else []) ∧
    (∀ (days2 now2 : Int) (cb2 : Bool),
      (activate_user days2 now2 cb2 (activate_user days now cb s k).store
        k).result = .notFound) ∧
    (∀ days2 now2 : Int,
      activation_key_expired days2 now2
        ⟨{ u with is_active := true }, ACTIVATED⟩ = true) := by
  have hAk := ACTIVATED_beq_false_of_sha1Match hk
  have hact := activate_success_eq days now cb s k ⟨u, k⟩ hk hfil hfresh
  have hnew : ((activate_user days now cb s k).store).filter
      (fun q => q.activation_key == k) = [] := by
    rw [hact]
    apply List.filter_eq_nil_iff.mpr
    intro a ha
    rcases List.mem_map.mp ha with ⟨q, hq, rfl⟩
    by_cases hid : (q.user.id == u.id) = true
    · simp [hid, hAk]
    · have hid' : (q.user.id == u.id) = false := by simpa using hid
      simp [hid']
      intro hkey
      have hqin : q ∈ s.filter (fun r => r.activation_key == k) :=
        List.mem_filter.mpr ⟨hq, by simp [hkey]⟩
      rw [hfil] at hqin
      have hqu : q = ⟨u, k⟩ := by simpa using hqin
      rw [hqu] at hid'
      simp at hid'
  refine ⟨by rw [hact], by rw [hact], by rw [hact], ?_, ?_⟩
  · intro days2 now2 cb2
    have hgen : ∀ t : Store,
        t.filter (fun q => q.activation_key == k) = [] →
        (activate_user days2 now2 cb2 t k).result = .notFound := by
      intro t hnil
      simp [activate_user, hk, hnil]
    exact hgen _ hnew
  · intro days2 now2
    exact expired_of_sentinel days2 now2 _ rfl

/-- C4 witness. -/
theorem activation_consumes_token_once_witness :
    (activate_user 7 0 false [⟨u0sample, k40sample⟩] k40sample).result =
      .activated { u0sample with is_active := true } :=
  (activation_consumes_token_once 7 0 false [⟨u0sample, k40sample⟩]
    u0sample k40sample (by decide) (by decide) (by decide)).1

/-- C10: whenever `activate_user` fails (malformed token, no matching
record, or expired record), it leaves every record of the store unchanged
and invokes no callback. -/
theorem activate_failure_preserves_store (days now : Int) (cb : Bool)
    (s : Store) (k : String)
    (h : (activate_user days now cb s k).result = .invalidKey ∨
         (activate_user days now cb s k).result = .notFound ∨
         (activate_user days now cb s k).result = .expired) :
    (activate_user days now cb s k).store = s ∧
    (activate_user days now cb s k).callbackCalls = [] := by
  by_cases hsha : sha1Match k = true
  · cases hfil : s.filter (fun p => p.activation_key == k) with
    | nil => simp [activate_user, hsha, hfil]
    | cons p rest =>
      cases rest with
      | nil =>
        by_cases hexp : activation_key_expired days now p = true
        · simp [activate_user, hsha, hfil, hexp]
        · exfalso
          have hexp' : activation_key_expired days now p = false := by
            simpa using hexp
          simp [activate_user, hsha, hfil, hexp'] at h
      | cons q rest2 => simp [activate_user, hsha, hfil]
  · have hsha' : sha1Match k = false := by simpa using hsha
    simp [activate_user, hsha']

/-- C10 witness. -/
theorem activate_failure_preserves_store_witness :
    (activate_user 7 0 false [⟨u0sample, k40sample⟩] "bad-token").store =
      [⟨u0sample, k40sample⟩] ∧
    (activate_user 7 0 false [⟨u0sample, k40sample⟩]
      "bad-token").callbackCalls = [] :=
  activate_failure_preserves_store 7 0 false [⟨u0sample, k40sample⟩]
    "bad-token" (Or.inl (by decide))

/-- C8: when the username lookup finds its unique record,
`send_activation_email` always forces the rendered subject to a single line
(every sent mail's subject has all line-boundary characters removed), and
silently sends no mail whenever the resolved destination address is empty
after trimming whitespace; otherwise it sends exactly one mail to that
address. -/
theorem send_activation_email_spec (render : String → String)
    (defaultFrom : String) (s : Store) (username : String)
    (email : Option String) (tb ts : Option String)
    (p : RegistrationProfile)
    (hp : s.filter (fun q => q.user.username == username) = [p]) :
    (∀ m : Mail,
      send_activation_email render defaultFrom s username email tb ts =
        .ok (some m) →
      ∀ c ∈ m.subject.toList, isLineBoundary c = false) ∧
    ((pyStrip (resolvedDest p.user.email email) == "") = true →
      send_activation_email render defaultFrom s username email tb ts =
        .ok none) ∧
    ((pyStrip (resolvedDest p.user.email email) == "") = false →
      send_activation_email render defaultFrom s username email tb ts =
        .ok (some
          ⟨joinSplitlines (render (defaultIfBlank ts
              "registration/activation_email_subject.txt")),
           render (defaultIfBlank tb "registration/activation_email.txt"),
           defaultFrom,
           resolvedDest p.user.email email⟩)) := by
  have hsend : send_activation_email render defaultFrom s username email tb
      ts =
      (if !(pyStrip (resolvedDest p.user.email email) == "") then
        .ok (some
          ⟨joinSplitlines (render (defaultIfBlank ts
              "registration/activation_email_subject.txt")),
           render (defaultIfBlank tb "registration/activation_email.txt"),
           defaultFrom,
           resolvedDest p.user.email email⟩)
      else .ok none) := by
    unfold send_activation_email
    rw [hp]
  refine ⟨?_, ?_, ?_⟩
  · intro m hm c hc
    rw [hsend] at hm
    by_cases hb : (pyStrip (resolvedDest p.user.email email) == "") = true
    · rw [hb] at hm
      simp at hm
    · have hb' : (pyStrip (resolvedDest p.user.email email) == "") = false :=
        by simpa using hb
      rw [hb'] at hm
      simp at hm
      rw [← hm] at hc
      exact joinSplitlines_no_boundary _ c hc
  · intro hb
    rw [hsend, hb]
    rfl
  · intro hb
    rw [hsend, hb]
    rfl

/-- C8 witness. -/
theorem send_activation_email_spec_witness :
    send_activation_email (fun _ => "Sub\nject") "noreply@example.com"
      [⟨u0sample, k40sample⟩] "alice" none none none =
      .ok (some ⟨"Subject", "Sub\nject", "noreply@example.com",
        "a@example.com"⟩) :=
  (send_activation_email_spec (fun _ => "Sub\nject") "noreply@example.com"
    [⟨u0sample, k40sample⟩] "alice" none none none ⟨u0sample, k40sample⟩
    (by decide)).2.2 (by decide)

/-- C1: on a store in which at most one record carries the presented token,
`activate_user` applies its checks in the fixed order syntax check, record
lookup, expiry check, each short-circuiting to a failure value that is not
an account (and never to an uncaught exception); when all checks pass it
sets the account's active flag, rewrites that record's token to the
sentinel, invokes the optional callback with the freshly activated account,
and returns that account. -/
theorem activate_user_pipeline (days now : Int) (cb : Bool) (s : Store)
    (k : String)
    (huniq : (s.filter (fun p => p.activation_key == k)).length ≤ 1) :
    (activate_user days now cb s k).result ≠ .dbError ∧
    (sha1Match k = false →
      activate_user days now cb s k = ⟨.invalidKey, s, []⟩) ∧
    (sha1Match k = true → (∀ p ∈ s, (p.activation_key == k) = false) →
      activate_user days now cb s k = ⟨.notFound, s, []⟩) ∧
    (∀ p : RegistrationProfile, sha1Match k = true → p ∈ s →
      p.activation_key = k → activation_key_expired days now p = true →
      activate_user days now cb s k = ⟨.expired, s, []⟩) ∧
    (∀ p : RegistrationProfile, sha1Match k = true → p ∈ s →
      p.activation_key = k → activation_key_expired days now p = false →
      activate_user days now cb s k =
        ⟨.activated { p.user with is_active := true },
         s.map (fun q => if q.user.id == p.user.id then
             ⟨{ p.user with is_active := true }, ACTIVATED⟩ else q),
         if cb then [{ p.user with is_active := true }] else []⟩) := by
  refine ⟨?_, ?_, ?_, ?_, ?_⟩
  · by_cases hsha : sha1Match k = true
    · cases hfil : s.filter (fun p => p.activation_key == k) with
      | nil => simp [activate_user, hsha, hfil]
      | cons p rest =>
        cases rest with
        | nil =>
          by_cases hexp : activation_key_expired days now p = true
          · simp [activate_user, hsha, hfil, hexp]
          · have hexp' : activation_key_expired days now p = false := by
              simpa using hexp
            simp [activate_user, hsha, hfil, hexp']
        | cons q rest2 =>
          rw [hfil] at huniq
          simp at huniq
    · have hsha' : sha1Match k = false := by simpa using hsha
      simp [activate_user, hsha']
  · intro h
    simp [activate_user, h]
  · intro hsha hall
    have hfil : s.filter (fun p => p.activation_key == k) = [] :=
      List.filter_eq_nil_iff.mpr (by intro a ha; simp [hall a ha])
    simp [activate_user, hsha, hfil]
  · intro p hsha hp hkey hexp
    have hfil : s.filter (fun q => q.activation_key == k) = [p] :=
      filter_eq_singleton_of_mem hp (by simp [hkey]) huniq
    simp [activate_user, hsha, hfil, hexp]
  · intro p hsha hp hkey hexp
    have hfil : s.filter (fun q => q.activation_key == k) = [p] :=
      filter_eq_singleton_of_mem hp (by simp [hkey]) huniq
    exact activate_success_eq days now cb s k p hsha hfil hexp

/-- C1 witness. -/
theorem activate_user_pipeline_witness :
    activate_user 7 0 false [] "not-40-hex" = ⟨.invalidKey, [], []⟩ :=
  (activate_user_pipeline 7 0 false [] "not-40-hex" (by decide)).2.1
    (by decide)

/-- The loop of `delete_expired_users`: a record survives the loop iff it is
in the live store and no iterated record that meets the deletion condition
has its user id. -/
theorem mem_purgeLoop (days now : Int) (q : RegistrationProfile) :
    ∀ (l : List RegistrationProfile) (t : Store),
      q ∈ purgeLoop days now l t ↔
        q ∈ t ∧ ∀ p ∈ l, purgeCond days now p = true →
          p.user.id ≠ q.user.id := by
  intro l
  induction l with
  | nil =>
    intro t
    simp [purgeLoop]
  | cons p rest ih =>
    intro t
    by_cases hc : purgeCond days now p = true
    · rw [purgeLoop, if_pos hc, ih]
      simp only [deleteUser, List.mem_filter, List.mem_cons]
      constructor
      · rintro ⟨⟨hqt, hne⟩, hrest⟩
        have hpq : p.user.id ≠ q.user.id := by
          intro he
          rw [← he] at hne
          simp at hne
        refine ⟨hqt, ?_⟩
        rintro r (rfl | hr) hcr
        · exact hpq
        · exact hrest r hr hcr
      · rintro ⟨hqt, hall⟩
        have hpq := hall p (Or.inl rfl) hc
        refine ⟨⟨hqt, ?_⟩, fun r hr hcr => hall r (Or.inr hr) hcr⟩
        simp
        exact fun he => hpq he.symm
    · have hc' : purgeCond days now p = false := by simpa using hc
      rw [purgeLoop, if_neg (by simp [hc']), ih]
      constructor
      · rintro ⟨hqt, hrest⟩
        refine ⟨hqt, ?_⟩
        intro r hr hcr
        rcases List.mem_cons.mp hr with rfl | hr2
        · rw [hc'] at hcr
          cases hcr
        · exact hrest r hr2 hcr
      · rintro ⟨hqt, hall⟩
        exact ⟨hqt, fun r hr hcr => hall r (List.mem_cons_of_mem p hr) hcr⟩

/-- C3: on a store whose user ids are pairwise distinct (the one-to-one
invariant), `delete_expired_users` keeps exactly the records that are not
both expired and inactive — so it deletes an inactive account whose record
is expired (the account's deletion cascading to its record), keeps an
active account with a still-valid token, and deletes an administratively
deactivated account whose record holds the sentinel token. -/
theorem delete_expired_users_spec (days now : Int) (s : Store)
    (hids : (s.map (fun p => p.user.id)).Nodup)
    (q : RegistrationProfile) (hq : q ∈ s) :
    (q ∈ delete_expired_users days now s ↔
      ¬(activation_key_expired days now q = true ∧
        q.user.is_active = false)) ∧
    (activation_key_expired days now q = true → q.user.is_active = false →
      q ∉ delete_expired_users days now s) ∧
    (q.user.is_active = true → activation_key_expired days now q = false →
      q ∈ delete_expired_users days now s) ∧
    (q.activation_key = ACTIVATED → q.user.is_active = false →
      q ∉ delete_expired_users days now s) := by
  have hmain : q ∈ delete_expired_users days now s ↔
      ¬(activation_key_expired days now q = true ∧
        q.user.is_active = false) := by
    rw [delete_expired_users, mem_purgeLoop]
    constructor
    · rintro ⟨-, hall⟩ ⟨hexp, hact⟩
      exact hall q hq (by simp [purgeCond, hexp, hact]) rfl
    · intro hn
      refine ⟨hq, fun p hp hcp heq => ?_⟩
      have hpq : p = q := List.inj_on_of_nodup_map hids hp hq heq
      rw [hpq] at hcp
      unfold purgeCond at hcp
      simp [Bool.and_eq_true] at hcp
      exact hn ⟨hcp.1, hcp.2⟩
  refine ⟨hmain, ?_, ?_, ?_⟩
  · intro hexp hact
    rw [hmain]
    exact not_not_intro ⟨hexp, hact⟩
  · intro hact hnotexp
    rw [hmain]
    rintro ⟨he, -⟩
    rw [hnotexp] at he
    cases he
  · intro hsent hact
    rw [hmain]
    exact not_not_intro ⟨expired_of_sentinel days now q hsent, hact⟩

/-- C3 witness. -/
theorem delete_expired_users_spec_witness :
    rowActiveValid ∈ delete_expired_users 7 (8 * usPerDay) s3sample ∧
    rowExpiredInactive ∉ delete_expired_users 7 (8 * usPerDay) s3sample ∧
    rowSentinelInactive ∉ delete_expired_users 7 (8 * usPerDay) s3sample :=
  ⟨(delete_expired_users_spec 7 (8 * usPerDay) s3sample (by decide)
      rowActiveValid (by decide)).2.2.1 (by decide) (by decide),
   (delete_expired_users_spec 7 (8 * usPerDay) s3sample (by decide)
      rowExpiredInactive (by decide)).2.1 (by decide) (by decide),
   (delete_expired_users_spec 7 (8 * usPerDay) s3sample (by decide)
      rowSentinelInactive (by decide)).2.2.2 (by decide) (by decide)⟩

end Registration
